import Mathlib

/-!
Shallow embedding of the deno-infra-client permission prober, transport
resolver and lifecycle client factory (src/permissions/run.ts,
src/permissions/command.ts, src/permissions/read.ts, src/permissions/types.ts,
src/permissions/constants.ts, src/permissions/utils.ts,
src/lifecycle/builders.ts, src/lifecycle/utils.ts, src/lifecycle/client.ts).

Effectful Deno APIs (permission queries, process spawning, HTTP fetch over a
Unix socket, environment variables) are modelled as explicit inputs: a world
record supplies the outcome of each external call, and the embedded functions
additionally return a log of the external calls they performed, so that
"no probe happened" claims are provable.
-/

namespace InfraClient

/-- The states a `Deno.permissions.query` call can report
(`granted`, `denied` or `prompt`). -/
inductive DenoPermState
  | granted
  | denied
  | prompt
  deriving DecidableEq, Repr

/-- Outcome of one `Deno.permissions.query` call: a returned status object, or
a thrown exception (modelled by its stringified message). -/
inductive QueryResult
  | ok (state : DenoPermState)
  | thrown (err : String)
  deriving DecidableEq, Repr

/-- The verdict states of `PermissionEntry` in src/permissions/types.ts. -/
inductive PermState
  | granted
  | denied
  | unavailable
  | error
  deriving DecidableEq, Repr

/-- Embedding of `PermissionEntry` from src/permissions/types.ts. -/
structure PermissionEntry where
  name : String
  state : PermState
  path : Option String := none
  message : Option String := none
  deriving DecidableEq, Repr

/-- The operating-system families relevant to `Deno.build.os` checks. -/
inductive OSKind
  | windows
  | linux
  | darwin
  deriving DecidableEq, Repr

/-- Embedding of `checkRunPermission` from src/permissions/run.ts, as a function of the
outcome of the underlying `Deno.permissions.query({ name: "run" })` call. -/
def checkRunPermission (q : QueryResult) : PermissionEntry :=
  match q with
  | QueryResult.ok s =>
      { name := "run"
        state := if s = DenoPermState.granted then PermState.granted else PermState.denied }
  | QueryResult.thrown err =>
      { name := "run"
        state := PermState.error
        message := some err }

/-- The per-path body of the loop in `checkReadPermissions`
(src/permissions/read.ts): query read permission on `p`, mapping a granted
query to `granted`, any other returned state to `denied`, and a thrown query
to `error`, always recording the path. -/
def readEntryFor (query : String → QueryResult) (p : String) : PermissionEntry :=
  match query p with
  | QueryResult.ok s =>
      { name := "read"
        state := if s = DenoPermState.granted then PermState.granted else PermState.denied
        path := some p }
  | QueryResult.thrown err =>
      { name := "read"
        state := PermState.error
        path := some p
        message := some err }

/-- Embedding of `checkReadPermissions` from src/permissions/read.ts: on
Windows it short-circuits to an empty list; otherwise it applies the per-path
check to each path, preserving input order. -/
def checkReadPermissions (os : OSKind) (query : String → QueryResult)
    (paths : List String) : List PermissionEntry :=
  if os = OSKind.windows then
    []
  else
    paths.map (readEntryFor query)

/-- The ways `Deno.Command(...).spawn()` can throw. -/
inductive SpawnErr
  | notFound
  | permissionDenied
  | other (msg : String)
  deriving DecidableEq, Repr

/-- Outcome of awaiting a spawned process's `status`: an exit (with its
`success` flag) or a failure while waiting. -/
inductive WaitOutcome
  | exited (success : Bool)
  | waitFailed (msg : String)
  deriving DecidableEq, Repr

/-- Outcome of one spawn attempt: the process was spawned (with its eventual
wait outcome) or the spawn call itself threw. -/
inductive SpawnOutcome
  | spawned (w : WaitOutcome)
  | failed (e : SpawnErr)
  deriving DecidableEq, Repr

/-- World for `checkCommandCapability`: the result of the run-permission
query, the value of `Deno.execPath()`, and the outcome of spawning a given
program with given arguments. -/
structure CommandWorld where
  runPermQuery : QueryResult
  execPath : String
  spawn : String → List String → SpawnOutcome

/-- The `name` field used by `checkCommandCapability`:
`` `${bin} ${args.join(" ")}` ``. -/
def cmdName (bin : String) (args : List String) : String :=
  bin ++ " " ++ String.intercalate " " args

/-- Embedding of `checkCommandCapability` from src/permissions/command.ts, together with
the list of spawn attempts `(program, argv)` it performed.  Note two facts of
the source, reproduced faithfully here: the spawned program is
`Deno.execPath()` with `[bin, ...args]` as its argument vector (not `bin`
itself), and a spawned process that exits unsuccessfully yields state
`"error"` (the surrounding comments claim `"granted"`). -/
def checkCommandCapability (w : CommandWorld) (bin : String) (args : List String) :
    PermissionEntry × List (String × List String) :=
  match w.runPermQuery with
  | QueryResult.thrown err =>
      ({ name := cmdName bin args
         state := PermState.error
         message := some ("failed to query run permission: " ++ err) }, [])
  | QueryResult.ok s =>
      if s ≠ DenoPermState.granted then
        ({ name := cmdName bin args
           state := PermState.denied
           message := some "run permission not granted" }, [])
      else
        let call := (w.execPath, bin :: args)
        match w.spawn w.execPath (bin :: args) with
        | SpawnOutcome.failed SpawnErr.notFound =>
            ({ name := cmdName bin args
               state := PermState.unavailable }, [call])
        | SpawnOutcome.failed SpawnErr.permissionDenied =>
            ({ name := cmdName bin args
               state := PermState.denied
               message := some "permission denied to run subprocess" }, [call])
        | SpawnOutcome.failed (SpawnErr.other msg) =>
            ({ name := cmdName bin args
               state := PermState.error
               message := some msg }, [call])
        | SpawnOutcome.spawned (WaitOutcome.exited success) =>
            ({ name := cmdName bin args
               state := if success then PermState.granted else PermState.error }, [call])
        | SpawnOutcome.spawned (WaitOutcome.waitFailed msg) =>
            ({ name := cmdName bin args
               state := PermState.error
               message := some msg }, [call])

/-- Embedding of `ContainerPlatform` from the external `@ggpwnkthx/infra-sense` package
(the repository's platform detector collaborator), modelled as an inductive
with the member names that appear throughout the repository's sources. -/
inductive ContainerPlatform
  | host
  | docker
  | dockerCgroup
  | kubernetesDocker
  | podman
  | criO
  | kubernetesCriO
  | kubernetesOther
  | containerd
  | rkt
  | lxclxd
  | systemdNspawn
  deriving DecidableEq, Repr

/-- Rendering of a `ContainerPlatform` value in template-string
interpolations, modelled by the enum member's name. -/
def platformStr : ContainerPlatform → String
  | ContainerPlatform.host => "Host"
  | ContainerPlatform.docker => "Docker"
  | ContainerPlatform.dockerCgroup => "DockerCgroup"
  | ContainerPlatform.kubernetesDocker => "KubernetesDocker"
  | ContainerPlatform.podman => "Podman"
  | ContainerPlatform.criO => "CRIO"
  | ContainerPlatform.kubernetesCriO => "KubernetesCriO"
  | ContainerPlatform.kubernetesOther => "KubernetesOther"
  | ContainerPlatform.containerd => "Containerd"
  | ContainerPlatform.rkt => "Rkt"
  | ContainerPlatform.lxclxd => "LXCLXD"
  | ContainerPlatform.systemdNspawn => "SystemdNspawn"

/-- Embedding of `getBinName` from src/lifecycle/builders.ts.  The `host` case falls into
the source's `default` branch and yields `"docker"`. -/
def getBinName : ContainerPlatform → String
  | ContainerPlatform.docker => "docker"
  | ContainerPlatform.dockerCgroup => "docker"
  | ContainerPlatform.kubernetesDocker => "docker"
  | ContainerPlatform.podman => "podman"
  | ContainerPlatform.criO => "crio"
  | ContainerPlatform.kubernetesCriO => "crio"
  | ContainerPlatform.kubernetesOther => "ctr"
  | ContainerPlatform.containerd => "ctr"
  | ContainerPlatform.rkt => "rkt"
  | ContainerPlatform.lxclxd => "lxc"
  | ContainerPlatform.systemdNspawn => "machinectl"
  | ContainerPlatform.host => "docker"

/-- The record of argument-builder functions returned by `getArgBuilders`
(src/lifecycle/builders.ts).  `createArgs` returns `none` where the source
returns `null` ("create" unsupported). -/
structure ArgBuilders where
  statusArgs : String → List String
  startArgs : String → List String
  stopArgs : String → List String
  createArgs : String → String → Option (List String)

/-- Embedding of `getArgBuilders` from src/lifecycle/builders.ts.  The `host` case falls
into the source's `default` (Docker-like) branch. -/
def getArgBuilders : ContainerPlatform → ArgBuilders
  | ContainerPlatform.docker =>
      { statusArgs := fun id => ["inspect", id]
        startArgs := fun id => ["start", id]
        stopArgs := fun id => ["stop", id]
        createArgs := fun id image => some ["create", "--name", id, image] }
  | ContainerPlatform.kubernetesDocker =>
      { statusArgs := fun id => ["inspect", id]
        startArgs := fun id => ["start", id]
        stopArgs := fun id => ["stop", id]
        createArgs := fun id image => some ["create", "--name", id, image] }
  | ContainerPlatform.dockerCgroup =>
      { statusArgs := fun id => ["inspect", id]
        startArgs := fun id => ["start", id]
        stopArgs := fun id => ["stop", id]
        createArgs := fun id image => some ["create", "--name", id, image] }
  | ContainerPlatform.podman =>
      { statusArgs := fun id => ["inspect", id]
        startArgs := fun id => ["start", id]
        stopArgs := fun id => ["stop", id]
        createArgs := fun id image => some ["create", "--name", id, image] }
  | ContainerPlatform.criO =>
      { statusArgs := fun id => ["inspect", id]
        startArgs := fun id => ["start", id]
        stopArgs := fun id => ["stop", id]
        createArgs := fun _ _ => none }
  | ContainerPlatform.kubernetesCriO =>
      { statusArgs := fun id => ["inspect", id]
        startArgs := fun id => ["start", id]
        stopArgs := fun id => ["stop", id]
        createArgs := fun _ _ => none }
  | ContainerPlatform.containerd =>
      { statusArgs := fun id => ["containers", "info", id]
        startArgs := fun id => ["containers", "start", id]
        stopArgs := fun id => ["containers", "stop", id]
        createArgs := fun _ _ => none }
  | ContainerPlatform.kubernetesOther =>
      { statusArgs := fun id => ["containers", "info", id]
        startArgs := fun id => ["containers", "start", id]
        stopArgs := fun id => ["containers", "stop", id]
        createArgs := fun _ _ => none }
  | ContainerPlatform.rkt =>
      { statusArgs := fun id => ["status", id]
        startArgs := fun id => ["run", id]
        stopArgs := fun id => ["stop", id]
        createArgs := fun _ _ => none }
  | ContainerPlatform.lxclxd =>
      { statusArgs := fun id => ["info", id]
        startArgs := fun id => ["start", id]
        stopArgs := fun id => ["stop", id]
        createArgs := fun _ _ => none }
  | ContainerPlatform.systemdNspawn =>
      { statusArgs := fun id => ["show", id]
        startArgs := fun id => ["start", id]
        stopArgs := fun id => ["stop", id]
        createArgs := fun _ _ => none }
  | ContainerPlatform.host =>
      { statusArgs := fun id => ["inspect", id]
        startArgs := fun id => ["start", id]
        stopArgs := fun id => ["stop", id]
        createArgs := fun id image => some ["create", "--name", id, image] }

/-- The environment variables consulted by src/permissions/utils.ts. -/
structure Env where
  KUBECONFIG : Option String
  HOME : Option String
  USERPROFILE : Option String

/-- JavaScript truthiness of an optional string: `undefined` and `""` are
falsy. -/
def truthy (o : Option String) : Option String :=
  match o with
  | some s => if s = "" then none else some s
  | none => none

/-- Embedding of `getHomeDirectory` from src/permissions/utils.ts:
`Deno.env.get("HOME") || Deno.env.get("USERPROFILE")`. -/
def getHomeDirectory (env : Env) : Option String :=
  match truthy env.HOME with
  | some h => some h
  | none => env.USERPROFILE

/-- Embedding of `getKubeConfigPath` from src/permissions/utils.ts. -/
def getKubeConfigPath (env : Env) : String :=
  match truthy env.KUBECONFIG with
  | some k => k
  | none =>
      match truthy (getHomeDirectory env) with
      | some home => home ++ "/.kube/config"
      | none => "/home/unknown/.kube/config"

/-- One uppercase hexadecimal digit. -/
def hexDigitChar (n : Nat) : Char :=
  if n < 10 then Char.ofNat (48 + n) else Char.ofNat (55 + n)

/-- Percent-encoding of one byte, uppercase, as in `encodeURIComponent`. -/
def percentEncodeByte (b : Nat) : String :=
  "%" ++ String.singleton (hexDigitChar (b / 16)) ++ String.singleton (hexDigitChar (b % 16))

/-- The characters `encodeURIComponent` leaves unescaped. -/
def uriUnreserved (c : Char) : Bool :=
  c.isAlphanum || c = '-' || c = '_' || c = '.' || c = '!' || c = '~' ||
    c = '*' || c = Char.ofNat 39 || c = '(' || c = ')'

/-- Model of JavaScript's `encodeURIComponent`, used by the Docker-style
create-URL builders in src/permissions/constants.ts. -/
def encodeURIComponent (s : String) : String :=
  s.toList.foldl
    (fun acc c =>
      if uriUnreserved c then
        acc.push c
      else
        acc ++ String.join
          (((String.singleton c).toUTF8.toList).map (fun b => percentEncodeByte b.toNat)))
    ""

/-- An HTTP request descriptor `{ method, url }` built by a socket operation. -/
structure HttpReq where
  method : String
  url : String
  deriving DecidableEq, Repr

/-- The JSON body `{ Image: image }` of a Docker-style create request. -/
structure CreateBody where
  Image : String
  deriving DecidableEq, Repr

/-- An HTTP request descriptor `{ method, url, body }` built by a socket
create operation. -/
structure HttpCreateReq where
  method : String
  url : String
  body : CreateBody
  deriving DecidableEq, Repr

/-- The per-socket operation builders of `SocketPathInfo` in
src/permissions/constants.ts.  A builder that throws in the source is
modelled as returning `Except.error` with the thrown message. -/
structure SocketOps where
  status : String → Except String HttpReq
  start : String → Except String HttpReq
  stop : String → Except String HttpReq
  create : String → String → Except String HttpCreateReq

/-- Embedding of `SocketPathInfo` from src/permissions/constants.ts. -/
structure SocketPathInfo where
  path : String
  operations : SocketOps

/-- The Docker-compatible HTTP operation builders used for the Docker,
DockerCgroup, KubernetesDocker and Podman socket entries. -/
def dockerStyleOps : SocketOps :=
  { status := fun id => Except.ok { method := "GET", url := "/containers/" ++ id ++ "/json" }
    start := fun id => Except.ok { method := "POST", url := "/containers/" ++ id ++ "/start" }
    stop := fun id => Except.ok { method := "POST", url := "/containers/" ++ id ++ "/stop" }
    create := fun id image =>
      Except.ok
        { method := "POST"
          url := "/containers/create?name=" ++ encodeURIComponent id
          body := { Image := image } } }

/-- The kubeconfig socket entries' operation builders: every operation
throws. -/
def kubeconfigOps : SocketOps :=
  { status := fun _ =>
      Except.error "Socket‐based status not supported for Kubernetes via kubeconfig"
    start := fun _ =>
      Except.error "Socket‐based start not supported for Kubernetes via kubeconfig"
    stop := fun _ =>
      Except.error "Socket‐based stop not supported for Kubernetes via kubeconfig"
    create := fun _ _ =>
      Except.error "Socket‐based create not supported for Kubernetes via kubeconfig" }

/-- The CRI-O socket entry's operation builders: every operation throws. -/
def crioOps : SocketOps :=
  { status := fun _ => Except.error "Socket‐based status not implemented for CRIO"
    start := fun _ => Except.error "Socket‐based start not implemented for CRIO"
    stop := fun _ => Except.error "Socket‐based stop not implemented for CRIO"
    create := fun _ _ => Except.error "Socket‐based create not implemented for CRIO" }

/-- The containerd socket entry's operation builders: every operation
throws. -/
def containerdOps : SocketOps :=
  { status := fun _ => Except.error "Socket‐based status not implemented for containerd via HTTP"
    start := fun _ => Except.error "Socket‐based start not implemented for containerd via HTTP"
    stop := fun _ => Except.error "Socket‐based stop not implemented for containerd via HTTP"
    create := fun _ _ =>
      Except.error "Socket‐based create not implemented for containerd via HTTP" }

/-- The rkt entry's operation builders: every operation throws. -/
def rktOps : SocketOps :=
  { status := fun _ => Except.error "Socket‐based status not implemented for Rkt"
    start := fun _ => Except.error "Socket‐based start not implemented for Rkt"
    stop := fun _ => Except.error "Socket‐based stop not implemented for Rkt"
    create := fun _ _ => Except.error "Socket‐based create not implemented for Rkt" }

/-- The LXC/LXD entries' operation builders: every operation throws. -/
def lxdOps : SocketOps :=
  { status := fun _ => Except.error "Socket‐based status not implemented for LXC/LXD via HTTP"
    start := fun _ => Except.error "Socket‐based start not implemented for LXC/LXD via HTTP"
    stop := fun _ => Except.error "Socket‐based stop not implemented for LXC/LXD via HTTP"
    create := fun _ _ => Except.error "Socket‐based create not implemented for LXC/LXD via HTTP" }

/-- The Docker engine socket candidate. -/
def dockerSockInfo : SocketPathInfo :=
  { path := "/var/run/docker.sock", operations := dockerStyleOps }

/-- The kubeconfig pseudo-socket candidate (its path depends on the
environment). -/
def kubeconfigInfo (env : Env) : SocketPathInfo :=
  { path := getKubeConfigPath env, operations := kubeconfigOps }

/-- The first Podman socket candidate. -/
def podmanSockInfo1 : SocketPathInfo :=
  { path := "/run/podman/podman.sock", operations := dockerStyleOps }

/-- The second Podman socket candidate. -/
def podmanSockInfo2 : SocketPathInfo :=
  { path := "/var/run/podman/podman.sock", operations := dockerStyleOps }

/-- The CRI-O socket candidate. -/
def crioSockInfo : SocketPathInfo :=
  { path := "/var/run/crio/crio.sock", operations := crioOps }

/-- The containerd socket candidate. -/
def containerdSockInfo : SocketPathInfo :=
  { path := "/run/containerd/containerd.sock", operations := containerdOps }

/-- The rkt data-directory candidate. -/
def rktSockInfo : SocketPathInfo :=
  { path := "/var/lib/rkt", operations := rktOps }

/-- The snap LXD socket candidate. -/
def lxdSnapSockInfo : SocketPathInfo :=
  { path := "/var/snap/lxd/common/lxd/unix.socket", operations := lxdOps }

/-- The non-snap LXD socket candidate. -/
def lxdVarSockInfo : SocketPathInfo :=
  { path := "/var/lib/lxd/unix.socket", operations := lxdOps }

/-- Embedding of `SOCKET_PATHS` from src/permissions/constants.ts: the
registered socket transport candidates per platform, in registration order.
The kubeconfig entries' paths call `getKubeConfigPath()`, so the table is a
function of the environment. -/
def SOCKET_PATHS (env : Env) : ContainerPlatform → List SocketPathInfo
  | ContainerPlatform.host => []
  | ContainerPlatform.docker => [dockerSockInfo]
  | ContainerPlatform.dockerCgroup => [dockerSockInfo]
  | ContainerPlatform.kubernetesDocker => [dockerSockInfo, kubeconfigInfo env]
  | ContainerPlatform.podman => [podmanSockInfo1, podmanSockInfo2]
  | ContainerPlatform.criO => [crioSockInfo]
  | ContainerPlatform.kubernetesCriO => [kubeconfigInfo env, crioSockInfo]
  | ContainerPlatform.kubernetesOther => [kubeconfigInfo env, containerdSockInfo]
  | ContainerPlatform.containerd => [containerdSockInfo]
  | ContainerPlatform.rkt => [rktSockInfo]
  | ContainerPlatform.lxclxd => [lxdSnapSockInfo, lxdVarSockInfo]
  | ContainerPlatform.systemdNspawn => []

/-- Embedding of `Deno.CommandOutput` shape as produced by this code: exit code, success
flag, stdout/stderr byte lists and an optional signal.  The no-op client's
literal omits `signal`; that is modelled as `none`. -/
structure CommandOutput where
  code : Int
  success : Bool
  stdout : List Nat
  stderr : List Nat
  signal : Option Int
  deriving DecidableEq, Repr

/-- The neutral output resolved by every no-op client operation
(src/lifecycle/client.ts, the `Host` branch of `getLifecycleClient`). -/
def noopOutput : CommandOutput :=
  { code := 0, success := true, stdout := [], stderr := [], signal := none }

/-- An HTTP response received over the socket transport: status code and body
bytes. -/
structure HttpResponse where
  status : Nat
  body : List Nat
  deriving DecidableEq, Repr

/-- Embedding of `Response.ok`: status in the 2xx range. -/
def isOkStatus (s : Nat) : Bool :=
  decide (200 ≤ s ∧ s < 300)

/-- Embedding of `httpToCommandOutput` from src/lifecycle/client.ts:
`code = response.ok ? 0 : response.status`, `success = response.ok`, body
bytes as stdout, empty stderr, null signal. -/
def httpToCommandOutput (r : HttpResponse) : CommandOutput :=
  { code := if isOkStatus r.status then 0 else (r.status : Int)
    success := isOkStatus r.status
    stdout := r.body
    stderr := []
    signal := none }

/-- Embedding of `isExecutable` from src/lifecycle/utils.ts: spawn `bin --help`; only a
`NotFound` throw makes the binary absent — any other outcome (exit of either
kind, wait failure, permission denial, other spawn error) counts as
present. -/
def isExecutable (spawn : String → List String → SpawnOutcome) (bin : String) : Bool :=
  match spawn bin ["--help"] with
  | SpawnOutcome.failed SpawnErr.notFound => false
  | _ => true

/-- The transport a constructed `LifecycleClient` is bound to: the no-op
client, a `CliLifecycleClient` (binary name plus argument builders) or a
`SocketLifecycleClient` (one `SocketPathInfo`). -/
inductive Transport
  | noop
  | cli (binName : String) (builders : ArgBuilders)
  | socket (info : SocketPathInfo)

/-- Whether a transport is the CLI transport. -/
def isCliTransport : Transport → Bool
  | Transport.cli _ _ => true
  | _ => false

/-- Embedding of `LifecycleClient` (src/lifecycle/types.ts): the detected platform plus
the bound transport. -/
structure LifecycleClient where
  platform : ContainerPlatform
  transport : Transport

/-- Rendering of a `PermState` in template-string interpolations. -/
def permStateStr : PermState → String
  | PermState.granted => "granted"
  | PermState.denied => "denied"
  | PermState.unavailable => "unavailable"
  | PermState.error => "error"

/-- The optional ` (message)` suffix appended to error strings. -/
def messageSuffix : Option String → String
  | some m => " (" ++ m ++ ")"
  | none => ""

/-- World for `getLifecycleClient`: outcomes of the run-permission query, the
OS family, read-permission queries per path, spawn attempts, and the
environment variables read by `getKubeConfigPath`. -/
structure ResolveWorld where
  runQuery : QueryResult
  os : OSKind
  readQuery : String → QueryResult
  spawn : String → List String → SpawnOutcome
  env : Env

/-- The pairing loop of `getLifecycleClient` (src/lifecycle/client.ts):
keep the `SocketPathInfo` whose read-permission entry is `granted`. -/
def pickGranted (pr : PermissionEntry × SocketPathInfo) : Option SocketPathInfo :=
  if pr.1.state = PermState.granted then some pr.2 else none

/-- The external probes performed during one resolution: the paths whose read
permission was queried, and the spawn attempts `(program, argv)`. -/
structure ProbeLog where
  readProbes : List String
  spawnProbes : List (String × List String)
  deriving DecidableEq, Repr

/-- Embedding of `getLifecycleClient` from src/lifecycle/client.ts, paired with the log of
probes performed.  Mirrors the source's order: Host short-circuit, run
permission, read probes over the platform's socket candidates, `isExecutable`
on the canonical binary, CLI preferred, else first readable socket, else
error. -/
def getLifecycleClient (w : ResolveWorld) (platform : ContainerPlatform) :
    Except String LifecycleClient × ProbeLog :=
  if platform = ContainerPlatform.host then
    (Except.ok { platform := platform, transport := Transport.noop }, { readProbes := [], spawnProbes := [] })
  else
    let runPerm := checkRunPermission w.runQuery
    if runPerm.state ≠ PermState.granted then
      (Except.error
          ("Cannot create LifecycleClient: “run” permission is " ++
            permStateStr runPerm.state ++ messageSuffix runPerm.message),
        { readProbes := [], spawnProbes := [] })
    else
      let candidateInfos := SOCKET_PATHS w.env platform
      let candidatePaths := candidateInfos.map (fun info => info.path)
      let readEntries := checkReadPermissions w.os w.readQuery candidatePaths
      let readableInfos := (readEntries.zip candidateInfos).filterMap pickGranted
      let binName := getBinName platform
      let binExists := isExecutable w.spawn binName
      let log : ProbeLog :=
        { readProbes := readEntries.filterMap (fun e => e.path)
          spawnProbes := [(binName, ["--help"])] }
      if binExists then
        (Except.ok
            { platform := platform
              transport := Transport.cli binName (getArgBuilders platform) },
          log)
      else
        match readableInfos with
        | [] =>
            (Except.error
                ("Neither binary \"" ++ binName ++ "\" found nor any socket is readable for " ++
                  platformStr platform),
              log)
        | info :: _ =>
            (Except.ok { platform := platform, transport := Transport.socket info }, log)

/-- The four lifecycle operations exposed by every client. -/
inductive OpKind
  | status
  | start
  | stop
  | create
  deriving DecidableEq, Repr

/-- World for one client operation: outcomes of the capability probe's
external calls, of `runSubprocess`, and of `fetch` over the bound socket
(method, url, optional JSON body). -/
structure OpWorld where
  cmd : CommandWorld
  run : String → List String → Except String CommandOutput
  fetch : String → String → Option CreateBody → Except String HttpResponse

/-- The external effects performed during one client operation: spawn
attempts made by the capability probe, real subprocess executions, and
socket fetches `(method, url)`. -/
structure OpLog where
  capProbes : List (String × List String)
  runs : List (String × List String)
  fetches : List (String × String)
  deriving DecidableEq, Repr

/-- The error-message prefix of a failed CLI pre-flight check, per
operation (src/lifecycle/client.ts). -/
def cliOpErrorHead : OpKind → String
  | OpKind.status => "Cannot query status: "
  | OpKind.start => "Cannot start container: "
  | OpKind.stop => "Cannot stop container: "
  | OpKind.create => "Cannot create container: "

/-- The request built by a socket client for one operation: the operation
builder's `{method, url}` (plus the JSON body for create), or the builder's
thrown error. -/
def socketRequest (ops : SocketOps) (k : OpKind) (id image : String) :
    Except String (String × String × Option CreateBody) :=
  match k with
  | OpKind.status => (ops.status id).map (fun r => (r.method, r.url, none))
  | OpKind.start => (ops.start id).map (fun r => (r.method, r.url, none))
  | OpKind.stop => (ops.stop id).map (fun r => (r.method, r.url, none))
  | OpKind.create => (ops.create id image).map (fun r => (r.method, r.url, some r.body))

/-- One operation of a constructed client (src/lifecycle/client.ts), paired
with the log of external effects.  No-op clients resolve immediately; CLI
clients build the argument vector (create may be unsupported), run the
capability pre-flight, then the real subprocess; socket clients build the
request descriptor (which may throw) and fetch it, wrapping the response via
`httpToCommandOutput` and raising only transport-level fetch failures. -/
def runOperation (w : OpWorld) (c : LifecycleClient) (k : OpKind) (id image : String) :
    Except String CommandOutput × OpLog :=
  match c.transport with
  | Transport.noop =>
      (Except.ok noopOutput, { capProbes := [], runs := [], fetches := [] })
  | Transport.cli binName builders =>
      let argsOpt : Option (List String) :=
        match k with
        | OpKind.status => some (builders.statusArgs id)
        | OpKind.start => some (builders.startArgs id)
        | OpKind.stop => some (builders.stopArgs id)
        | OpKind.create => builders.createArgs id image
      match argsOpt with
      | none =>
          (Except.error ("Create-container not supported on platform " ++ platformStr c.platform),
            { capProbes := [], runs := [], fetches := [] })
      | some args =>
          let pc := checkCommandCapability w.cmd binName args
          if pc.1.state ≠ PermState.granted then
            (Except.error (cliOpErrorHead k ++ permStateStr pc.1.state ++ messageSuffix pc.1.message),
              { capProbes := pc.2, runs := [], fetches := [] })
          else
            (w.run binName args, { capProbes := pc.2, runs := [(binName, args)], fetches := [] })
  | Transport.socket info =>
      match socketRequest info.operations k id image with
      | Except.error e =>
          (Except.error e, { capProbes := [], runs := [], fetches := [] })
      | Except.ok (m, u, b) =>
          match w.fetch m ("http://localhost" ++ u) b with
          | Except.error e =>
              (Except.error e, { capProbes := [], runs := [], fetches := [(m, "http://localhost" ++ u)] })
          | Except.ok resp =>
              (Except.ok (httpToCommandOutput resp),
                { capProbes := [], runs := [], fetches := [(m, "http://localhost" ++ u)] })

/-- A concrete environment for concrete evaluations. -/
def env0 : Env :=
  { KUBECONFIG := none, HOME := some "/root", USERPROFILE := none }

/-- A command world where the run permission is granted and every spawned
process exits with a non-zero code. -/
def wNonzeroExit : CommandWorld :=
  { runPermQuery := QueryResult.ok DenoPermState.granted
    execPath := "/usr/bin/deno"
    spawn := fun _ _ => SpawnOutcome.spawned (WaitOutcome.exited false) }

/-- A command world where only the Deno executable itself exists on the
search path (spawning anything else throws NotFound) and it exits zero. -/
def wDenoOnly : CommandWorld :=
  { runPermQuery := QueryResult.ok DenoPermState.granted
    execPath := "/usr/bin/deno"
    spawn := fun prog _ =>
      if prog = "/usr/bin/deno" then SpawnOutcome.spawned (WaitOutcome.exited true)
      else SpawnOutcome.failed SpawnErr.notFound }

/-- A Linux resolve world where run permission is granted but no binary is
found and no path is readable. -/
def wNothingLinux : ResolveWorld :=
  { runQuery := QueryResult.ok DenoPermState.granted
    os := OSKind.linux
    readQuery := fun _ => QueryResult.ok DenoPermState.denied
    spawn := fun _ _ => SpawnOutcome.failed SpawnErr.notFound
    env := env0 }

/-- The same world on Windows, where read probes are skipped entirely. -/
def wNothingWindows : ResolveWorld :=
  { wNothingLinux with os := OSKind.windows }

/-- A resolve world where the run permission is denied, no binary is found
and no path is readable. -/
def wDeniedNothing : ResolveWorld :=
  { runQuery := QueryResult.ok DenoPermState.denied
    os := OSKind.linux
    readQuery := fun _ => QueryResult.ok DenoPermState.denied
    spawn := fun _ _ => SpawnOutcome.failed SpawnErr.notFound
    env := env0 }

/-- A resolve world whose run-permission query reports denied. -/
def wRunDenied : ResolveWorld :=
  { runQuery := QueryResult.ok DenoPermState.denied
    os := OSKind.linux
    readQuery := fun _ => QueryResult.ok DenoPermState.granted
    spawn := fun _ _ => SpawnOutcome.spawned (WaitOutcome.exited true)
    env := env0 }

/-- A resolve world where everything is available: run permission granted,
every binary spawns and exits zero, every path readable. -/
def wAllGood : ResolveWorld :=
  { runQuery := QueryResult.ok DenoPermState.granted
    os := OSKind.linux
    readQuery := fun _ => QueryResult.ok DenoPermState.granted
    spawn := fun _ _ => SpawnOutcome.spawned (WaitOutcome.exited true)
    env := env0 }

/-- A resolve world where no binary is found but every path is readable. -/
def wSocketsOnly : ResolveWorld :=
  { runQuery := QueryResult.ok DenoPermState.granted
    os := OSKind.linux
    readQuery := fun _ => QueryResult.ok DenoPermState.granted
    spawn := fun _ _ => SpawnOutcome.failed SpawnErr.notFound
    env := env0 }

/-- A concrete operation world: capability probes succeed, subprocess runs
return the neutral output, fetches answer 404 with a two-byte body. -/
def opwDefault : OpWorld :=
  { cmd :=
      { runPermQuery := QueryResult.ok DenoPermState.granted
        execPath := "/usr/bin/deno"
        spawn := fun _ _ => SpawnOutcome.spawned (WaitOutcome.exited true) }
    run := fun _ _ => Except.ok noopOutput
    fetch := fun _ _ _ => Except.ok { status := 404, body := [110, 111] } }

/-- Helper: when no read entry is granted, pairing entries with candidates
selects nothing. -/
theorem filterMap_pickGranted_nil (entries : List PermissionEntry)
    (infos : List SocketPathInfo)
    (h : ∀ e ∈ entries, e.state ≠ PermState.granted) :
    (entries.zip infos).filterMap pickGranted = [] := by
  induction entries generalizing infos with
  | nil => simp
  | cons a t ih =>
      cases infos with
      | nil => simp
      | cons b t2 =>
          have ha := h a (List.mem_cons_self a t)
          simp only [List.zip_cons_cons, List.filterMap_cons, pickGranted, if_neg ha]
          exact ih t2 (fun e he => h e (List.mem_cons_of_mem a he))

/-- Helper: if the entry at index `i` is granted and no earlier entry is,
pairing entries with candidates selects the candidate at index `i` first. -/
theorem filterMap_pickGranted_head (i : Nat) :
    ∀ (entries : List PermissionEntry) (infos : List SocketPathInfo)
      (e : PermissionEntry) (b : SocketPathInfo),
      entries[i]? = some e → e.state = PermState.granted →
      (∀ j e', j < i → entries[j]? = some e' → e'.state ≠ PermState.granted) →
      infos[i]? = some b →
      ∃ rest, (entries.zip infos).filterMap pickGranted = b :: rest := by
  induction i with
  | zero =>
      intro entries infos e b he hg _ hb
      cases entries with
      | nil => simp at he
      | cons a t =>
          cases infos with
          | nil => simp at hb
          | cons c t2 =>
              simp only [List.getElem?_cons_zero, Option.some.injEq] at he hb
              subst he; subst hb
              exact ⟨(t.zip t2).filterMap pickGranted, by simp [pickGranted, hg]⟩
  | succ i ih =>
      intro entries infos e b he hg hfirst hb
      cases entries with
      | nil => simp at he
      | cons a t =>
          cases infos with
          | nil => simp at hb
          | cons c t2 =>
              have ha : a.state ≠ PermState.granted :=
                hfirst 0 a (Nat.succ_pos i) (by simp)
              simp only [List.getElem?_cons_succ] at he hb
              obtain ⟨rest, hr⟩ := ih t t2 e b he hg
                (fun j e' hj hj2 => hfirst (j + 1) e' (Nat.succ_lt_succ hj) (by simpa using hj2))
                hb
              exact ⟨rest, by simp [pickGranted, ha, hr]⟩

/-- C1: the claim states that when `checkCommandCapability` spawns a process
that exits with a non-zero code, the verdict is `granted`.  The code (and
this embedding of it) instead returns `error` in that case, contradicting the
function's own comments; this theorem evaluates the code at such an input. -/
theorem nonzero_exit_yields_error_state :
    (checkCommandCapability wNonzeroExit "docker" ["inspect", "abc"]).1.state =
      PermState.error := rfl

/-- C2: the claim states that `checkCommandCapability` spawns the named
binary itself with exactly the given args and answers `unavailable` exactly
when that binary is absent.  In a world where `"docker"` is absent from the
search path but the Deno executable exists, the code spawns only the Deno
executable with `["docker", "ps"]` as its argument vector and reports
`granted`, not `unavailable`. -/
theorem probe_spawns_deno_executable_not_binary :
    (checkCommandCapability wDenoOnly "docker" ["ps"]).1.state = PermState.granted ∧
    (checkCommandCapability wDenoOnly "docker" ["ps"]).2 =
      [("/usr/bin/deno", ["docker", "ps"])] ∧
    wDenoOnly.spawn "docker" ["ps"] = SpawnOutcome.failed SpawnErr.notFound := by
  refine ⟨rfl, rfl, by decide⟩

/-- C7: resolving the host platform always yields the no-op client with zero
read probes and zero spawn probes, and every operation of that client
succeeds with the neutral output (success, code 0, empty stdout/stderr) while
performing no capability probes, subprocess runs or fetches. -/
theorem host_resolution_is_noop :
    (∀ w : ResolveWorld,
      getLifecycleClient w ContainerPlatform.host =
        (Except.ok { platform := ContainerPlatform.host, transport := Transport.noop },
          { readProbes := [], spawnProbes := [] })) ∧
    (∀ (opw : OpWorld) (k : OpKind) (id image : String),
      runOperation opw { platform := ContainerPlatform.host, transport := Transport.noop }
          k id image =
        (Except.ok noopOutput, { capProbes := [], runs := [], fetches := [] })) ∧
    noopOutput.success = true ∧ noopOutput.code = 0 ∧
    noopOutput.stdout = [] ∧ noopOutput.stderr = [] := by
  refine ⟨fun w => rfl, fun opw k id image => rfl, rfl, rfl, rfl, rfl⟩

/-- Witness for C7 at concrete inputs. -/
theorem host_resolution_is_noop_witness :
    getLifecycleClient wAllGood ContainerPlatform.host =
      (Except.ok { platform := ContainerPlatform.host, transport := Transport.noop },
        { readProbes := [], spawnProbes := [] }) ∧
    runOperation opwDefault
        { platform := ContainerPlatform.host, transport := Transport.noop }
        OpKind.create "abc" "nginx:latest" =
      (Except.ok noopOutput, { capProbes := [], runs := [], fetches := [] }) :=
  ⟨host_resolution_is_noop.1 wAllGood,
    host_resolution_is_noop.2.1 opwDefault OpKind.create "abc" "nginx:latest"⟩

/-- C4: for every platform other than host, when the run-permission check
does not report granted, resolution fails immediately with the
permission-state error and performs zero read probes and zero spawn
probes (no socket candidate is ever probed or used as a fallback). -/
theorem run_permission_gate (w : ResolveWorld) (p : ContainerPlatform)
    (hp : p ≠ ContainerPlatform.host)
    (hrun : (checkRunPermission w.runQuery).state ≠ PermState.granted) :
    getLifecycleClient w p =
      (Except.error
          ("Cannot create LifecycleClient: “run” permission is " ++
            permStateStr (checkRunPermission w.runQuery).state ++
            messageSuffix (checkRunPermission w.runQuery).message),
        { readProbes := [], spawnProbes := [] }) := by
  simp [getLifecycleClient, hp, hrun]

/-- Witness for C4: a denied run permission on the Docker platform. -/
theorem run_permission_gate_witness :
    getLifecycleClient wRunDenied ContainerPlatform.docker =
      (Except.error "Cannot create LifecycleClient: “run” permission is denied",
        { readProbes := [], spawnProbes := [] }) :=
  run_permission_gate wRunDenied ContainerPlatform.docker (by decide) (by decide)

/-- C3 counterexample: the claim, read over every RuntimeIdentity, fails in
three ways.  (1) The failure error cannot name the count of socket candidates
tried: with the Docker platform, one candidate is read-probed on Linux and
zero on Windows, yet the error is the same concrete string in both cases.
(2) At host the claim's antecedent holds — the canonical binary (docker via
the default mapping) is absent and the empty candidate list has no granted
read verdict — yet resolution succeeds with the no-op client instead of
failing.  (3) When the run permission is denied (binary still absent, no
candidate readable), resolution fails with the run-permission error, whose
text does not contain the attempted binary's name at all. -/
theorem resolution_error_lacks_candidate_count :
    (getLifecycleClient wNothingLinux ContainerPlatform.docker).2.readProbes =
      ["/var/run/docker.sock"] ∧
    (getLifecycleClient wNothingWindows ContainerPlatform.docker).2.readProbes = [] ∧
    (getLifecycleClient wNothingLinux ContainerPlatform.docker).1 =
      Except.error "Neither binary \"docker\" found nor any socket is readable for Docker" ∧
    (getLifecycleClient wNothingWindows ContainerPlatform.docker).1 =
      Except.error "Neither binary \"docker\" found nor any socket is readable for Docker" ∧
    isExecutable wNothingLinux.spawn (getBinName ContainerPlatform.host) = false ∧
    SOCKET_PATHS wNothingLinux.env ContainerPlatform.host = [] ∧
    (getLifecycleClient wNothingLinux ContainerPlatform.host).1 =
      Except.ok { platform := ContainerPlatform.host, transport := Transport.noop } ∧
    isExecutable wDeniedNothing.spawn (getBinName ContainerPlatform.docker) = false ∧
    (readEntryFor wDeniedNothing.readQuery "/var/run/docker.sock").state =
      PermState.denied ∧
    (getLifecycleClient wDeniedNothing ContainerPlatform.docker).1 =
      Except.error "Cannot create LifecycleClient: “run” permission is denied" ∧
    ¬ ("docker".toList <:+:
        "Cannot create LifecycleClient: “run” permission is denied".toList) := by
  refine ⟨rfl, rfl, rfl, rfl, rfl, rfl, rfl, rfl, rfl, rfl, by decide⟩

/-- C3 (amended): when the platform is not host, run permission is granted,
the canonical binary is absent and no socket candidate's read verdict is
granted, resolution fails with an error naming the attempted binary and
stating that no socket was readable for the platform (the candidate count is
not part of the message). -/
theorem resolution_error_names_binary (w : ResolveWorld) (p : ContainerPlatform)
    (hp : p ≠ ContainerPlatform.host)
    (hrun : (checkRunPermission w.runQuery).state = PermState.granted)
    (hbin : isExecutable w.spawn (getBinName p) = false)
    (hno : ∀ e ∈ checkReadPermissions w.os w.readQuery
        ((SOCKET_PATHS w.env p).map (fun s => s.path)), e.state ≠ PermState.granted) :
    (getLifecycleClient w p).1 =
      Except.error ("Neither binary \"" ++ getBinName p ++
        "\" found nor any socket is readable for " ++ platformStr p) := by
  have hnil := filterMap_pickGranted_nil _ (SOCKET_PATHS w.env p) hno
  simp [getLifecycleClient, hp, hrun, hbin, hnil]

/-- Witness for C3 (amended) at a concrete world. -/
theorem resolution_error_names_binary_witness :
    (getLifecycleClient wNothingLinux ContainerPlatform.docker).1 =
      Except.error "Neither binary \"docker\" found nor any socket is readable for Docker" :=
  resolution_error_names_binary wNothingLinux ContainerPlatform.docker
    (by decide) rfl rfl (by decide)

/-- C5 counterexample: the claim quantifies over every platform, but for the
host platform resolution yields the no-op client even when the canonical
binary (docker, via the default mapping) is present and executable. -/
theorem host_client_not_cli_despite_binary :
    isExecutable wAllGood.spawn (getBinName ContainerPlatform.host) = true ∧
    (getLifecycleClient wAllGood ContainerPlatform.host).1 =
      Except.ok { platform := ContainerPlatform.host, transport := Transport.noop } ∧
    isCliTransport Transport.noop = false := by
  refine ⟨rfl, rfl, rfl⟩

/-- C5 (amended): for every platform other than host, whenever resolution
returns a client and the canonical CLI binary is present, that client is
CLI-transport-bound (with the canonical binary and the platform's argument
builders), regardless of which sockets are also readable. -/
theorem cli_preferred_when_binary_present (w : ResolveWorld) (p : ContainerPlatform)
    (c : LifecycleClient)
    (hp : p ≠ ContainerPlatform.host)
    (hbin : isExecutable w.spawn (getBinName p) = true)
    (hres : (getLifecycleClient w p).1 = Except.ok c) :
    c.transport = Transport.cli (getBinName p) (getArgBuilders p) := by
  by_cases hrun : (checkRunPermission w.runQuery).state = PermState.granted
  · simp [getLifecycleClient, hp, hrun, hbin] at hres
    rw [← hres]
  · simp [getLifecycleClient, hp, hrun] at hres

/-- Witness for C5 (amended): Podman with the binary present and all sockets
readable still resolves to a CLI client. -/
theorem cli_preferred_when_binary_present_witness :
    (LifecycleClient.mk ContainerPlatform.podman
        (Transport.cli "podman" (getArgBuilders ContainerPlatform.podman))).transport =
      Transport.cli (getBinName ContainerPlatform.podman)
        (getArgBuilders ContainerPlatform.podman) :=
  cli_preferred_when_binary_present wAllGood ContainerPlatform.podman
    (LifecycleClient.mk ContainerPlatform.podman
      (Transport.cli "podman" (getArgBuilders ContainerPlatform.podman)))
    (by decide) rfl rfl

/-- C6: with the binary absent, if the read entry at index `i` is granted and
every earlier entry is not, resolution binds the client to the socket
candidate registered at index `i` — the earliest granted candidate in
registration order. -/
theorem socket_selection_by_registration_order (w : ResolveWorld)
    (p : ContainerPlatform) (i : Nat) (e : PermissionEntry) (info : SocketPathInfo)
    (hp : p ≠ ContainerPlatform.host)
    (hrun : (checkRunPermission w.runQuery).state = PermState.granted)
    (hbin : isExecutable w.spawn (getBinName p) = false)
    (he : (checkReadPermissions w.os w.readQuery
        ((SOCKET_PATHS w.env p).map (fun s => s.path)))[i]? = some e)
    (hg : e.state = PermState.granted)
    (hfirst : ∀ j e', j < i → (checkReadPermissions w.os w.readQuery
        ((SOCKET_PATHS w.env p).map (fun s => s.path)))[j]? = some e' →
        e'.state ≠ PermState.granted)
    (hinfo : (SOCKET_PATHS w.env p)[i]? = some info) :
    (getLifecycleClient w p).1 =
      Except.ok { platform := p, transport := Transport.socket info } := by
  obtain ⟨rest, hr⟩ := filterMap_pickGranted_head i _ _ e info he hg hfirst hinfo
  simp [getLifecycleClient, hp, hrun, hbin, hr]

/-- Witness for C6: both Podman candidates granted selects the first
registered one. -/
theorem socket_selection_by_registration_order_witness :
    (getLifecycleClient wSocketsOnly ContainerPlatform.podman).1 =
      Except.ok { platform := ContainerPlatform.podman
                  transport := Transport.socket podmanSockInfo1 } :=
  socket_selection_by_registration_order wSocketsOnly ContainerPlatform.podman 0
    { name := "read", state := PermState.granted, path := some "/run/podman/podman.sock" }
    podmanSockInfo1 (by decide) rfl rfl rfl rfl
    (fun j e' hj _ => absurd hj (Nat.not_lt_zero j)) rfl

/-- C8: on a CLI client whose create builder returns null (registered as
unsupported), create always fails with the explicit not-supported error, with
zero capability probes, zero subprocess runs and zero fetches performed. -/
theorem create_unsupported_fails_before_io (w : OpWorld) (p : ContainerPlatform)
    (bin : String) (ab : ArgBuilders) (id image : String)
    (hnull : ab.createArgs id image = none) :
    runOperation w { platform := p, transport := Transport.cli bin ab }
        OpKind.create id image =
      (Except.error ("Create-container not supported on platform " ++ platformStr p),
        { capProbes := [], runs := [], fetches := [] }) := by
  simp [runOperation, hnull]

/-- Witness for C8: the CRI-O builders register create as unsupported. -/
theorem create_unsupported_fails_before_io_witness :
    runOperation opwDefault
        { platform := ContainerPlatform.criO
          transport := Transport.cli "crio" (getArgBuilders ContainerPlatform.criO) }
        OpKind.create "abc" "nginx:latest" =
      (Except.error "Create-container not supported on platform CRIO",
        { capProbes := [], runs := [], fetches := [] }) :=
  create_unsupported_fails_before_io opwDefault ContainerPlatform.criO "crio"
    (getArgBuilders ContainerPlatform.criO) "abc" "nginx:latest" rfl

/-- C9: when a socket-client operation's builder yields a request and the
fetch yields an HTTP response, the operation returns (does not raise) the
wrapped output: success is the 2xx flag, a non-2xx status is preserved as the
code, and a 2xx response gives code 0 with the body bytes as stdout. -/
theorem socket_response_wrapped_not_raised (w : OpWorld) (p : ContainerPlatform)
    (info : SocketPathInfo) (k : OpKind) (id image m u : String)
    (b : Option CreateBody) (resp : HttpResponse)
    (hreq : socketRequest info.operations k id image = Except.ok (m, u, b))
    (hfetch : w.fetch m ("http://localhost" ++ u) b = Except.ok resp) :
    (runOperation w { platform := p, transport := Transport.socket info } k id image).1 =
      Except.ok (httpToCommandOutput resp) ∧
    (httpToCommandOutput resp).success = isOkStatus resp.status ∧
    (isOkStatus resp.status = false →
      (httpToCommandOutput resp).code = (resp.status : Int)) ∧
    (isOkStatus resp.status = true →
      (httpToCommandOutput resp).code = 0 ∧ (httpToCommandOutput resp).stdout = resp.body) := by
  refine ⟨?_, rfl, ?_, ?_⟩
  · simp [runOperation, hreq, hfetch]
  · intro h; simp [httpToCommandOutput, h]
  · intro h; simp [httpToCommandOutput, h]

/-- Witness for C9: a 404 response on a Docker-socket status call. -/
theorem socket_response_wrapped_not_raised_witness :
    (runOperation opwDefault
        { platform := ContainerPlatform.docker
          transport := Transport.socket dockerSockInfo }
        OpKind.status "abc" "img").1 =
      Except.ok (httpToCommandOutput { status := 404, body := [110, 111] }) ∧
    isOkStatus 404 = false ∧
    (httpToCommandOutput { status := 404, body := [110, 111] }).code = (404 : Int) ∧
    (httpToCommandOutput { status := 404, body := [110, 111] }).success = false := by
  have h := socket_response_wrapped_not_raised opwDefault ContainerPlatform.docker
    dockerSockInfo OpKind.status "abc" "img" "GET" "/containers/abc/json" none
    { status := 404, body := [110, 111] } rfl rfl
  exact ⟨h.1, rfl, h.2.2.1 rfl, rfl⟩

/-- C10: the pure permission queries never produce an `unavailable` verdict:
the run check maps a non-granted query state (including prompt) to `denied`
and a thrown query to `error`; the read check does the same per path, always
records the probed path, and on non-Windows platforms returns exactly one
entry per input path in input order. -/
theorem pure_queries_never_unavailable (q : QueryResult) (os : OSKind)
    (qr : String → QueryResult) (paths : List String) :
    (checkRunPermission q).state ≠ PermState.unavailable ∧
    (∀ s, q = QueryResult.ok s → s ≠ DenoPermState.granted →
      (checkRunPermission q).state = PermState.denied) ∧
    (∀ err, q = QueryResult.thrown err →
      (checkRunPermission q).state = PermState.error) ∧
    (∀ e ∈ checkReadPermissions os qr paths, e.state ≠ PermState.unavailable) ∧
    (os ≠ OSKind.windows →
      (checkReadPermissions os qr paths).length = paths.length ∧
      ∀ (i : Nat) (e : PermissionEntry) (pp : String),
        (checkReadPermissions os qr paths)[i]? = some e → paths[i]? = some pp →
        e.path = some pp ∧
        (∀ s, qr pp = QueryResult.ok s →
          e.state = if s = DenoPermState.granted then PermState.granted
            else PermState.denied) ∧
        (∀ err, qr pp = QueryResult.thrown err → e.state = PermState.error)) := by
  refine ⟨?_, ?_, ?_, ?_, ?_⟩
  · cases q with
    | ok s => simp only [checkRunPermission]; split <;> simp
    | thrown err => simp [checkRunPermission]
  · intro s hq hs; subst hq; simp [checkRunPermission, hs]
  · intro err hq; subst hq; rfl
  · intro e he
    unfold checkReadPermissions at he
    split at he
    · simp at he
    · obtain ⟨pp, hpp, rfl⟩ := List.mem_map.mp he
      unfold readEntryFor
      cases qr pp with
      | ok s => simp only []; split <;> simp
      | thrown err => simp
  · intro hw
    refine ⟨by simp [checkReadPermissions, hw], ?_⟩
    intro i e pp he hpp
    have he1 : (paths.map (readEntryFor qr))[i]? = some e := by
      simpa [checkReadPermissions, hw] using he
    rw [List.getElem?_map, hpp] at he1
    simp only [Option.map_some', Option.some.injEq] at he1
    subst he1
    refine ⟨?_, ?_, ?_⟩
    · unfold readEntryFor; cases qr pp <;> simp
    · intro s h; simp [readEntryFor, h]
    · intro err h; simp [readEntryFor, h]

/-- Witness for C10: a prompt-state run query maps to denied, never
unavailable. -/
theorem pure_queries_never_unavailable_witness :
    (checkRunPermission (QueryResult.ok DenoPermState.prompt)).state = PermState.denied ∧
    (checkRunPermission (QueryResult.ok DenoPermState.prompt)).state ≠
      PermState.unavailable :=
  ⟨(pure_queries_never_unavailable (QueryResult.ok DenoPermState.prompt) OSKind.linux
      (fun _ => QueryResult.ok DenoPermState.granted) ["/var/run/docker.sock"]).2.1
      DenoPermState.prompt rfl (by decide),
    (pure_queries_never_unavailable (QueryResult.ok DenoPermState.prompt) OSKind.linux
      (fun _ => QueryResult.ok DenoPermState.granted) ["/var/run/docker.sock"]).1⟩

end InfraClient
